import Mathlib

/-!
# Verification of the BitMEX REST connector

Shallow embedding of `bitmex/bitmex.py` and `bitmex_om.py`.

The connector's core is `TradeClient._curl_bitmex_private` (the
authenticated dispatcher) and `TradeClient._curl_bitmex` (the public
dispatcher): they send a request, classify the HTTP outcome, and retry,
recover, rethrow or terminate.  Python dictionaries that flow through the
error-recovery code are modelled by the `PyVal` type, and the dynamic
errors Python raises at runtime (`TypeError`, `KeyError`) by `PyErr`,
because the duplicate-clOrdID recovery path's behaviour hinges on them.

Network effects are modelled by a script of `Outcome`s, one consumed per
dispatch attempt, and the observable side effects (sending, sleeping,
cancelling orders) by a trace of `Effect`s.  The shared mutable counter
`self.retries` is threaded explicitly as an `Option Nat`: `none` models
the attribute being absent from the instance (as on a fresh `TradeClient`,
whose `__init__` never calls `Client.__init__`), `some n` models
`self.retries == n`.
-/

/-- Python values appearing in the connector's dictionaries. -/
inductive PyVal where
  | none
  | bool (b : Bool)
  | int (n : Int)
  | str (s : String)
  | list (xs : List PyVal)
  | dict (kvs : List (String × PyVal))

/-- Python runtime errors raised inside the 400-handler, plus the
reconciliation failure the handler raises itself. -/
inductive PyErr where
  | typeError
  | keyError (k : String)
  | reconcileError
deriving Repr, DecidableEq

mutual

/-- Structural equality on `PyVal` (Python `==` restricted to the value
shapes the connector's comparisons actually reach). -/
def PyVal.beq : PyVal → PyVal → Bool
  | PyVal.none, PyVal.none => true
  | PyVal.bool a, PyVal.bool b => a == b
  | PyVal.int a, PyVal.int b => a == b
  | PyVal.str a, PyVal.str b => a == b
  | PyVal.list xs, PyVal.list ys => PyVal.beqList xs ys
  | PyVal.dict xs, PyVal.dict ys => PyVal.beqDict xs ys
  | _, _ => false

/-- Elementwise equality of Python lists. -/
def PyVal.beqList : List PyVal → List PyVal → Bool
  | [], [] => true
  | x :: xs, y :: ys => PyVal.beq x y && PyVal.beqList xs ys
  | _, _ => false

/-- Pairwise equality of dict entries (our dicts keep insertion order). -/
def PyVal.beqDict : List (String × PyVal) → List (String × PyVal) → Bool
  | [], [] => true
  | (k1, v1) :: xs, (k2, v2) :: ys => k1 == k2 && PyVal.beq v1 v2 && PyVal.beqDict xs ys
  | _, _ => false

end

instance : BEq PyVal := ⟨PyVal.beq⟩

/-- Does `hay` start with `needle`? -/
def listStartsWith : List Char → List Char → Bool
  | [], _ => true
  | _ :: _, [] => false
  | n :: ns, h :: hs => n == h && listStartsWith ns hs

/-- Does the character list contain `needle` as a contiguous sublist? -/
def containsSubList (needle : List Char) : List Char → Bool
  | [] => needle.isEmpty
  | c :: rest => listStartsWith needle (c :: rest) || containsSubList needle rest

/-- `needle in hay` on strings: substring test. -/
def containsSub (needle hay : String) : Bool :=
  containsSubList needle.toList hay.toList

/-- Split at the first occurrence of `sep`: `some (before, after)` when
`sep` occurs, `none` otherwise. -/
def breakOnList (sep : List Char) : List Char → Option (List Char × List Char)
  | [] => if sep.isEmpty then some ([], []) else Option.none
  | c :: rest =>
    if listStartsWith sep (c :: rest) then some ([], (c :: rest).drop sep.length)
    else
      match breakOnList sep rest with
      | some (pre, post) => some (c :: pre, post)
      | Option.none => Option.none

/-- The part of `s` before the first occurrence of `sep` (all of `s` when
`sep` does not occur). -/
def upToFirst (sep s : String) : String :=
  match breakOnList sep.toList s.toList with
  | some (pre, _) => String.mk pre
  | Option.none => s

/-- The part of `s` after the first occurrence of `sep`, when it occurs. -/
def afterFirst (sep s : String) : Option String :=
  match breakOnList sep.toList s.toList with
  | some (_, post) => some (String.mk post)
  | Option.none => Option.none

/-- Python `str.lower` restricted to ASCII, character by character. -/
def pyLower (s : String) : String :=
  String.mk (s.toList.map Char.toLower)

/-- Python `str.upper` restricted to ASCII, character by character. -/
def pyUpper (s : String) : String :=
  String.mk (s.toList.map Char.toUpper)

/-- Python subscript `v[k]` with a string key, as the connector uses it:
dict lookup (`KeyError` when absent); any non-dict raises `TypeError`
(in particular `'somekey'['clOrdID']`, which is what the broken
duplicate-clOrdID path runs into). -/
def getItem : PyVal → String → Except PyErr PyVal
  | PyVal.dict kvs, k =>
    match kvs.lookup k with
    | some v => Except.ok v
    | Option.none => Except.error (PyErr.keyError k)
  | _, _ => Except.error PyErr.typeError

/-- Python `k in v` for the container shapes that occur: key membership on
dicts, element membership on lists, substring on strings. -/
def pyContains (v : PyVal) (k : String) : Bool :=
  match v with
  | PyVal.dict kvs => kvs.any (fun p => p.1 == k)
  | PyVal.list xs => xs.any (fun x => x == PyVal.str k)
  | PyVal.str s => containsSub k s
  | _ => false

/-- Python iteration `for x in v`: a dict yields its keys (as strings),
a list its elements, a string its characters; other values raise
`TypeError`. -/
def pyIter : PyVal → Except PyErr (List PyVal)
  | PyVal.dict kvs => Except.ok (kvs.map (fun p => PyVal.str p.1))
  | PyVal.list xs => Except.ok xs
  | PyVal.str s => Except.ok (s.toList.map (fun c => PyVal.str c.toString))
  | _ => Except.error PyErr.typeError

/-- Python `abs` on the connector's quantities: integers only, anything
else raises `TypeError`. -/
def pyAbs : PyVal → Except PyErr PyVal
  | PyVal.int n => Except.ok (PyVal.int (if n < 0 then -n else n))
  | _ => Except.error PyErr.typeError

/-- Python `v > 0` as used on `postdict['orderQty']`: integers compare,
anything else raises `TypeError`. -/
def pyGt0 : PyVal → Except PyErr Bool
  | PyVal.int n => Except.ok (decide (0 < n))
  | _ => Except.error PyErr.typeError

/-- The list comprehension `[order['clOrdID'] for order in orders]`
(already iterated): each element is subscripted with `'clOrdID'`. -/
def clOrdIDs : List PyVal → Except PyErr (List PyVal)
  | [] => Except.ok []
  | o :: rest => do
    let v ← getItem o "clOrdID"
    let vs ← clOrdIDs rest
    Except.ok (v :: vs)

/-- One iteration of the reconciliation loop in
`_curl_bitmex_private` (bitmex.py lines 528-537): compare a refetched
order against the submitted `postdict`, field by field, with Python's
left-to-right short-circuit `or`.  A mismatch raises the
reconciliation-failure exception. -/
def checkOrder (postdict order : PyVal) : Except PyErr Unit := do
  let oq ← getItem order "orderQty"
  let pq ← getItem postdict "orderQty"
  let aq ← pyAbs pq
  if oq != aq then throw PyErr.reconcileError else
  let side ← getItem order "side"
  let pq2 ← getItem postdict "orderQty"
  let pos ← pyGt0 pq2
  if side != PyVal.str (if pos then "Buy" else "Sell") then throw PyErr.reconcileError else
  let op ← getItem order "price"
  let pp ← getItem postdict "price"
  if op != pp then throw PyErr.reconcileError else
  let os ← getItem order "symbol"
  let ps ← getItem postdict "symbol"
  if os != ps then throw PyErr.reconcileError else
  Except.ok ()

/-- `for i, order in enumerate(orderResults): ...` — run `checkOrder`
over every refetched order. -/
def reconcileAll (postdict : PyVal) : List PyVal → Except PyErr Unit
  | [] => Except.ok ()
  | o :: rest => do
    checkOrder postdict o
    reconcileAll postdict rest

/-- The `'duplicate clordid' in message` recovery branch of
`_curl_bitmex_private` (bitmex.py lines 521-539).

`orderResults` stands for the response of the nested
`self._curl_bitmex('/order', query={'filter': IDs}, verb='GET')`; it is a
parameter because the model treats that nested read as data.  Everything
before and after it is translated statement by statement:
`orders = postdict['orders'] if 'orders' in postdict else postdict`, the
clOrdID list comprehension (which runs *before* the nested GET), the
reconciliation loop, and the final `return orderResults`. -/
def handleDuplicateClOrdID (postdict : PyVal) (orderResults : List PyVal) :
    Except PyErr (List PyVal) := do
  let orders ← if pyContains postdict "orders" then getItem postdict "orders"
               else Except.ok postdict
  let it ← pyIter orders
  let _IDs ← clOrdIDs it
  reconcileAll postdict orderResults
  Except.ok orderResults

/-! ## The order-lifecycle façade (`TradeClient.place_order`, `buy`, `sell`) -/

/-- What `place_order` does before/instead of dispatching. -/
inductive PlaceResult where
  | raisedTypeError
    -- `price < 0` with `price = None`: unsupported comparison (Python 3 TypeError)
  | raisedPriceError
    -- `raise Exception("Price must be positive.")`
  | dispatched (postdict : PyVal)
    -- `self._curl_bitmex_private(path="order", postdict=postdict, verb="POST", private=True)`

/-- `Option Int` rendered as the Python value placed in a dict. -/
def optToPy : Option Int → PyVal
  | Option.none => PyVal.none
  | some n => PyVal.int n

/-- `TradeClient.place_order` (bitmex.py lines 342-368), up to the point
where it hands `postdict` to `_curl_bitmex_private`; the dispatch itself
is represented by the `dispatched` constructor carrying the exact
`postdict` that would be sent. -/
def place_order (symbol : String) (quantity : Int) (ordertpye : String)
    (price stopPx : Option Int) : PlaceResult :=
  let base : List (String × PyVal) :=
    [("symbol", PyVal.str symbol), ("orderQty", PyVal.int quantity),
     ("orderType", PyVal.str ordertpye)]
  if ordertpye ≠ "Market" then
    match price with
    | Option.none => PlaceResult.raisedTypeError
    | some p =>
      if p < 0 then PlaceResult.raisedPriceError
      else
        let pd : List (String × PyVal) :=
          [("price", PyVal.int p)] ++
          (if ordertpye = "StopLimit" ∨ ordertpye = "LimitIfTouched" then
            [("stopPx", optToPy stopPx)] else [])
        PlaceResult.dispatched (PyVal.dict (pd ++ base))
  else PlaceResult.dispatched (PyVal.dict base)

/-- `TradeClient.buy` (bitmex.py lines 324-330): forwards to
`place_order` with the literal arguments `price=None, stopPx=None`. -/
def buy (symbol : String) (quantity : Int) (ordertpye : String)
    (price stopPx : Option Int) : PlaceResult :=
  place_order symbol quantity ordertpye Option.none Option.none

/-- `TradeClient.sell` (bitmex.py lines 332-339): negates the quantity
and forwards to `place_order` with `price=None, stopPx=None`. -/
def sell (symbol : String) (quantity : Int) (ordertpye : String)
    (price stopPx : Option Int) : PlaceResult :=
  place_order symbol (-quantity) ordertpye Option.none Option.none

/-! ## Order-status classification (`ExchangeInterface.readOrderStatus`) -/

/-- The fields of the exchange acknowledgement dictionary that
`readOrderStatus` reads.  `price`, `cumQty`, `leavesQty` are modelled as
integers (`float()` on them is the identity in the model). -/
structure AckMsg where
  ordStatus : String
  workingIndicator : Bool
  price : Int
  cumQty : Int
  leavesQty : Int

/-- `ExchangeInterface.readOrderStatus` (bitmex_om.py lines 122-144),
dict case.

Python's conditional expression binds looser than `and`, so
`True if ackMsg['ordStatus'] == 'Filled' else False and not ackMsg['workingIndicator']`
parses as `True if cond else (False and not w)` — the embedding keeps the
dead `false && _` operand exactly as the source has it.  The `unknown`
variable is computed in the source and never used; it is kept inline as
`_unknown`. -/
def readOrderStatus (m : AckMsg) : String × Option Int × Option Int × Option Int :=
  let isTraded := if m.ordStatus = "Filled" then true else false && !m.workingIndicator
  let isCancelled := if m.ordStatus = "Canceled" then true else false
  let isActive := if m.ordStatus = "New" then true else false && m.workingIndicator
  let _unknown := if !(isTraded && isCancelled && isActive) then true else false
  if isTraded then ("FILLED", some m.price, some m.cumQty, some m.leavesQty)
  else if isCancelled then ("CXLED", Option.none, Option.none, Option.none)
  else if isActive then ("ACTIVE", Option.none, Option.none, Option.none)
  else ("UNKNOWN", Option.none, Option.none, Option.none)

/-! ## The signer (`generate_signature`, `APIKeyAuthWithExpires`) -/

/-- `urlparse(url).path` for the URL shapes this client produces:
the fragment (after `#`) and query (after the first `?`) are not part of
the path; when a `scheme://` is present the netloc (up to the next `/`)
is stripped as well, otherwise the whole remainder is the path. -/
def urlparse_path (url : String) : String :=
  let noFrag := upToFirst "#" url
  let beforeQuery := upToFirst "?" noFrag
  match afterFirst "://" beforeQuery with
  | Option.none => beforeQuery
  | some after =>
    match afterFirst "/" after with
    | Option.none => ""
    | some tail => "/" ++ tail

/-- `urlparse(url).query`: everything after the first `?` (fragment
removed first). -/
def urlparse_query (url : String) : String :=
  let noFrag := upToFirst "#" url
  match afterFirst "?" noFrag with
  | some q => q
  | Option.none => ""

/-- `generate_signature` (bitmex.py lines 51-80): parse the URL, keep
path plus `?query` when a query is present, concatenate
`verb + path + str(nonce) + data` and HMAC it.  The HMAC-SHA256
hex digest itself is a call into Python's `hmac`/`hashlib` libraries, so
it is abstracted as the function argument `hmacSha256Hex`
(secret → message → digest); everything the source computes around it is
translated. -/
def generate_signature (hmacSha256Hex : String → String → String)
    (secret verb url : String) (nonce : Int) (data : String) : String :=
  let path0 := urlparse_path url
  let path := if urlparse_query url ≠ "" then path0 ++ "?" ++ urlparse_query url else path0
  let message := verb ++ path ++ toString nonce ++ data
  hmacSha256Hex secret message

/-- The path-with-query string the signature is computed over
(`path = path + '?' + query` when the query is nonempty). -/
def urlPathWithQuery (url : String) : String :=
  if urlparse_query url ≠ "" then urlparse_path url ++ "?" ++ urlparse_query url
  else urlparse_path url

/-- The request fields `APIKeyAuthWithExpires.__call__` reads. -/
structure PreparedReq where
  method : String
  url : String
  body : Option String

/-- `APIKeyAuthWithExpires.__call__` (bitmex.py lines 91-104): the three
headers it sets, with `expires = int(round(time.time())) + 5` modelled
from the clock reading `now`, and the body defaulted with `r.body or ''`
(the empty string, never the text `"null"`). -/
def apiKeyAuthWithExpiresCall (hmacSha256Hex : String → String → String)
    (apiKey apiSecret : String) (now : Int) (r : PreparedReq) :
    List (String × String) :=
  let expires := now + 5
  [("api-expires", toString expires),
   ("api-key", apiKey),
   ("api-signature",
     generate_signature hmacSha256Hex apiSecret r.method r.url expires (r.body.getD ""))]

/-! ## The dispatchers (`_curl_bitmex_private`, `_curl_bitmex`)

One `Outcome` is consumed per dispatch attempt; the `Effect` trace records
the observable effects in order.  The shared `self.retries` counter is the
`Option Nat` state threaded through (`none` = attribute not yet assigned
on the instance). -/

/-- What one dispatch attempt comes back with. -/
inductive Outcome where
  | ok (body : PyVal)                -- 2xx; `response.json()`
  | timeout                          -- `requests.exceptions.Timeout`
  | connError                        -- `requests.exceptions.ConnectionError`
  | unauthorized                     -- HTTP 401
  | notFound                         -- HTTP 404
  | rateLimited (reset now : Int)    -- HTTP 429; `X-Ratelimit-Reset` header and `int(time.time())`
  | unavailable                      -- HTTP 503
  | badRequest (errMessage : Option String) (fetched : List PyVal)
      -- HTTP 400; `response.json()['error']['message']` (`none` when `error` is falsy)
      -- and, for the duplicate-clOrdID branch, the body of the nested GET /order
  | otherHttp (code : Nat)           -- any other non-2xx status

/-- Observable side effects of a logical call, in order. -/
inductive Effect where
  | send                     -- one HTTP request put on the wire
  | sleep (seconds : Int)    -- `time.sleep(...)`
  | cancelAllKnownOrders     -- `self.cancel([o['orderID'] for o in self.active_orders()])`
deriving Repr, DecidableEq

/-- How a logical call resolves. -/
inductive DispatchResult where
  | success (body : PyVal)      -- fell through the try: `self.retries = 0; return response.json()`
  | recovered (orders : List PyVal)  -- duplicate-clOrdID branch returned the refetched orders
  | returnedNone                -- 404 on a DELETE: `return` (order already gone)
  | exited                      -- `exit(1)`
  | raisedHTTP (code : Nat)     -- `exit_or_throw` re-raised the `requests` HTTPError
  | raisedErr (e : PyErr)       -- a Python error escaped the 400 handler
  | raisedMaxRetries            -- `Exception("Max retries on ... hit, raising.")`
  | attrError                   -- AttributeError (instance attribute never assigned)
  | noOutcome                   -- outcome script exhausted (simulation artefact)

/-- `max_retries = 0 if verb in ['POST', 'PUT'] else 3`
(bitmex.py lines 436-437 and 580-581). -/
def defaultMaxRetries (verb : String) : Nat :=
  if verb = "POST" ∨ verb = "PUT" then 0 else 3

/-- `TradeClient._curl_bitmex_private` (bitmex.py lines 422-564).

Per-branch translation, in source order: 2xx resets `self.retries` to 0
and returns the parsed body; 401 logs and `exit(1)` unconditionally; 404
returns `None` for a DELETE (after the log line subscripts
`postdict['orderID']`) and otherwise `exit_or_throw`s; 429 cancels all
known orders, sleeps until `X-Ratelimit-Reset`, and calls `retry()`; 503
sleeps 3 seconds and calls `retry()`; 400 runs the duplicate-clOrdID
recovery when the lowered error message contains `'duplicate clordid'`,
hits the `self.logger` AttributeError on `'insufficient available
balance'` (the instance has no `logger` attribute), and otherwise falls
through to `exit_or_throw`; a timeout calls `retry()` at once; a
connection error sleeps 1 second and calls `retry()`.  `retry()`
increments `self.retries` (AttributeError when the attribute is absent)
and raises the max-retries exception when the count exceeds the budget,
else re-dispatches.

The 429 branch's nested `active_orders`/`cancel` requests are modelled
atomically by the `cancelAllKnownOrders` action; when that recovery
completes without an exception, the last nested request to finish went
through the success path and assigned `self.retries = 0`, which the model
records before the outer `retry()` runs. -/
def curl_bitmex_private (verb : String) (rethrow_errors : Bool) (postdict : PyVal)
    (max_retries : Option Nat) :
    List Outcome → Option Nat → DispatchResult × Option Nat × List Effect
  | [], r => (DispatchResult.noOutcome, r, [])
  | o :: rest, r =>
    let maxR := max_retries.getD (defaultMaxRetries verb)
    let exitOrThrow : Nat → DispatchResult := fun code =>
      if rethrow_errors then DispatchResult.raisedHTTP code else DispatchResult.exited
    -- `retry()` as run from counter state `r'` after the actions `pre`
    let retryFrom : Option Nat → List Effect →
        DispatchResult × Option Nat × List Effect := fun r' pre =>
      match r' with
      | Option.none => (DispatchResult.attrError, Option.none, Effect.send :: pre)
      | some n =>
        if n + 1 > maxR then (DispatchResult.raisedMaxRetries, some (n + 1), Effect.send :: pre)
        else
          let t := curl_bitmex_private verb rethrow_errors postdict max_retries rest (some (n + 1))
          (t.1, t.2.1, Effect.send :: (pre ++ t.2.2))
    match o with
    | Outcome.ok body => (DispatchResult.success body, some 0, [Effect.send])
    | Outcome.timeout => retryFrom r []
    | Outcome.connError => retryFrom r [Effect.sleep 1]
    | Outcome.unauthorized => (DispatchResult.exited, r, [Effect.send])
    | Outcome.notFound =>
      if verb = "DELETE" then
        match getItem postdict "orderID" with
        | Except.ok _ => (DispatchResult.returnedNone, r, [Effect.send])
        | Except.error e => (DispatchResult.raisedErr e, r, [Effect.send])
      else (exitOrThrow 404, r, [Effect.send])
    | Outcome.rateLimited reset now =>
      retryFrom (some 0) [Effect.cancelAllKnownOrders, Effect.sleep (reset - now)]
    | Outcome.unavailable => retryFrom r [Effect.sleep 3]
    | Outcome.badRequest errMessage fetched =>
      let message := (match errMessage with | some m => pyLower m | Option.none => "")
      if containsSub "duplicate clordid" message then
        match handleDuplicateClOrdID postdict fetched with
        | Except.ok orders => (DispatchResult.recovered orders, r, [Effect.send])
        | Except.error e => (DispatchResult.raisedErr e, r, [Effect.send])
      else if containsSub "insufficient available balance" message then
        (DispatchResult.attrError, r, [Effect.send])
      else (exitOrThrow 400, r, [Effect.send])
    | Outcome.otherHttp code => (exitOrThrow code, r, [Effect.send])

/-- `TradeClient._curl_bitmex` (bitmex.py lines 566-655), the public
dispatcher.  Its HTTPError handler recognises only 429 (sleep until the
reset timestamp, then `retry()` — no order cancellation) and 503; every
other status, 401 and 404 included, falls through to the unhandled-error
branch and `exit_or_throw`.  Timeout and connection errors retry as in
the private dispatcher. -/
def curl_bitmex (verb : String) (rethrow_errors : Bool) (postdict : PyVal)
    (max_retries : Option Nat) :
    List Outcome → Option Nat → DispatchResult × Option Nat × List Effect
  | [], r => (DispatchResult.noOutcome, r, [])
  | o :: rest, r =>
    let maxR := max_retries.getD (defaultMaxRetries verb)
    let exitOrThrow : Nat → DispatchResult := fun code =>
      if rethrow_errors then DispatchResult.raisedHTTP code else DispatchResult.exited
    let retryFrom : Option Nat → List Effect →
        DispatchResult × Option Nat × List Effect := fun r' pre =>
      match r' with
      | Option.none => (DispatchResult.attrError, Option.none, Effect.send :: pre)
      | some n =>
        if n + 1 > maxR then (DispatchResult.raisedMaxRetries, some (n + 1), Effect.send :: pre)
        else
          let t := curl_bitmex verb rethrow_errors postdict max_retries rest (some (n + 1))
          (t.1, t.2.1, Effect.send :: (pre ++ t.2.2))
    match o with
    | Outcome.ok body => (DispatchResult.success body, some 0, [Effect.send])
    | Outcome.timeout => retryFrom r []
    | Outcome.connError => retryFrom r [Effect.sleep 1]
    | Outcome.unauthorized => (exitOrThrow 401, r, [Effect.send])
    | Outcome.notFound => (exitOrThrow 404, r, [Effect.send])
    | Outcome.rateLimited reset now => retryFrom r [Effect.sleep (reset - now)]
    | Outcome.unavailable => retryFrom r [Effect.sleep 3]
    | Outcome.badRequest _ _ => (exitOrThrow 400, r, [Effect.send])
    | Outcome.otherHttp code => (exitOrThrow code, r, [Effect.send])

/-! ## Shared lemmas -/

/-- The only way a logical call through the private dispatcher resolves
with `success` is by falling through the `try` block, which executes
`self.retries = 0` — so a successful call always leaves the shared
counter at zero. -/
theorem curl_bitmex_private_success_resets
    (verb : String) (rth : Bool) (pd : PyVal) (ma : Option Nat) :
    ∀ (outs : List Outcome) (r : Option Nat) (b : PyVal),
      (curl_bitmex_private verb rth pd ma outs r).1 = DispatchResult.success b →
      (curl_bitmex_private verb rth pd ma outs r).2.1 = some 0 := by
  intro outs
  induction outs with
  | nil =>
    intro r b h
    simp [curl_bitmex_private] at h
  | cons o rest ih =>
    intro r b h
    cases o with
    | ok body => simp [curl_bitmex_private]
    | timeout =>
      cases r with
      | none => simp [curl_bitmex_private] at h
      | some n =>
        by_cases hc : n + 1 > ma.getD (defaultMaxRetries verb)
        · simp [curl_bitmex_private, hc] at h
        · simp [curl_bitmex_private, hc] at h ⊢
          exact ih _ _ h
    | connError =>
      cases r with
      | none => simp [curl_bitmex_private] at h
      | some n =>
        by_cases hc : n + 1 > ma.getD (defaultMaxRetries verb)
        · simp [curl_bitmex_private, hc] at h
        · simp [curl_bitmex_private, hc] at h ⊢
          exact ih _ _ h
    | unavailable =>
      cases r with
      | none => simp [curl_bitmex_private] at h
      | some n =>
        by_cases hc : n + 1 > ma.getD (defaultMaxRetries verb)
        · simp [curl_bitmex_private, hc] at h
        · simp [curl_bitmex_private, hc] at h ⊢
          exact ih _ _ h
    | rateLimited reset now =>
      by_cases hc : 0 + 1 > ma.getD (defaultMaxRetries verb)
      · simp [curl_bitmex_private, hc] at h
      · simp [curl_bitmex_private, hc] at h ⊢
        exact ih _ _ h
    | unauthorized => simp [curl_bitmex_private] at h
    | notFound =>
      simp only [curl_bitmex_private] at h
      split at h
      · split at h <;> simp_all
      · split at h <;> simp_all
    | badRequest msg fetched =>
      simp only [curl_bitmex_private] at h
      split at h
      · split at h <;> simp_all
      · split at h
        · simp_all
        · split at h <;> simp_all
    | otherHttp code =>
      simp only [curl_bitmex_private] at h
      split at h <;> simp_all

/-! ## The claims -/

/-- Claim C1 (code_bug).  The claim states that on a 400 duplicate-clOrdID
response the dispatcher refetches the orders by clOrdID, compares each
against the submission and either returns them all (all match) or raises
a reconciliation error.  The code cannot do this: for a single-order
`postdict` (as built by `place_order`), `orders = postdict` is the flat
dict, so the comprehension `[order['clOrdID'] for order in orders]`
iterates the dict's string keys and `'price'['clOrdID']` raises
`TypeError` before the refetch is even issued; for a bulk `postdict`
(`{'orders': [...]}`), the comparison reads `postdict['orderQty']`, which
raises `KeyError`.  This theorem evaluates the recovery handler and the
full private dispatcher at such failing inputs: even a refetched order
that matches the submission perfectly ends in a raised `TypeError`
(single case) or `KeyError('orderQty')` (bulk case), never in the
documented recovery. -/
theorem C1_duplicate_recovery_crashes :
    handleDuplicateClOrdID
        (PyVal.dict [("price", PyVal.int 15200), ("symbol", PyVal.str "XBTUSD"),
                     ("orderQty", PyVal.int 100), ("orderType", PyVal.str "Limit")])
        [PyVal.dict [("clOrdID", PyVal.str "mm_bitmex_a1"), ("orderQty", PyVal.int 100),
                     ("side", PyVal.str "Buy"), ("price", PyVal.int 15200),
                     ("symbol", PyVal.str "XBTUSD")]]
      = Except.error PyErr.typeError
    ∧ curl_bitmex_private "POST" false
        (PyVal.dict [("price", PyVal.int 15200), ("symbol", PyVal.str "XBTUSD"),
                     ("orderQty", PyVal.int 100), ("orderType", PyVal.str "Limit")])
        Option.none
        [Outcome.badRequest (some "Duplicate clOrdID")
          [PyVal.dict [("clOrdID", PyVal.str "mm_bitmex_a1"), ("orderQty", PyVal.int 100),
                       ("side", PyVal.str "Buy"), ("price", PyVal.int 15200),
                       ("symbol", PyVal.str "XBTUSD")]]]
        (some 0)
      = (DispatchResult.raisedErr PyErr.typeError, some 0, [Effect.send])
    ∧ handleDuplicateClOrdID
        (PyVal.dict [("orders",
          PyVal.list [PyVal.dict [("clOrdID", PyVal.str "mm_bitmex_a1"),
                                  ("orderQty", PyVal.int 100), ("price", PyVal.int 15200),
                                  ("symbol", PyVal.str "XBTUSD")]])])
        [PyVal.dict [("clOrdID", PyVal.str "mm_bitmex_a1"), ("orderQty", PyVal.int 100),
                     ("side", PyVal.str "Buy"), ("price", PyVal.int 15200),
                     ("symbol", PyVal.str "XBTUSD")]]
      = Except.error (PyErr.keyError "orderQty") := by
  refine ⟨rfl, rfl, rfl⟩

/-- Claim C6 (confirmed).  For every input whose verb is already
uppercase (as it always is at the call sites: `requests` uppercases
`r.method` before the auth hook runs), the signature is the abstract
HMAC-SHA256 hex digest, keyed by the secret, of the concatenation of the
uppercase verb, the URL path including its query string with scheme and
host stripped, the nonce/expiry as decimal text, and the raw body
(defaulted to the empty string by `r.body or ''`, never the text
`"null"`).  Determinism and freedom from side effects hold by
construction: `generate_signature` is a pure function of its
arguments. -/
theorem C6_signature_spec :
    ∀ (hmac : String → String → String) (secret verb url : String) (nonce : Int)
      (data apiKey : String) (now : Int),
      pyUpper verb = verb →
      (generate_signature hmac secret verb url nonce data
          = hmac secret (pyUpper verb ++ urlPathWithQuery url ++ toString nonce ++ data)
        ∧ urlPathWithQuery "https://www.bitmex.com/api/v1/order?filter=abc"
          = "/api/v1/order?filter=abc"
        ∧ urlPathWithQuery "https://www.bitmex.com/api/v1/user/margin"
          = "/api/v1/user/margin"
        ∧ apiKeyAuthWithExpiresCall hmac apiKey secret now ⟨verb, url, Option.none⟩
          = [("api-expires", toString (now + 5)), ("api-key", apiKey),
             ("api-signature",
               hmac secret (verb ++ urlPathWithQuery url ++ toString (now + 5) ++ ""))]) := by
  intro hmac secret verb url nonce data apiKey now hverb
  refine ⟨by rw [hverb]; rfl, by decide, by decide, rfl⟩

/-- Witness for C6: the theorem applied at a concrete hash function,
secret, uppercase verb, URL, nonce and body. -/
theorem C6_signature_spec_witness :
    generate_signature (fun s m => m ++ "|" ++ s) "chNOOS4e" "POST"
        "https://www.bitmex.com/api/v1/order?filter=abc" 1416993995705 "body"
      = (fun s m => m ++ "|" ++ s) "chNOOS4e"
          (pyUpper "POST" ++ urlPathWithQuery "https://www.bitmex.com/api/v1/order?filter=abc"
            ++ toString (1416993995705 : Int) ++ "body")
    ∧ urlPathWithQuery "https://www.bitmex.com/api/v1/order?filter=abc"
      = "/api/v1/order?filter=abc"
    ∧ urlPathWithQuery "https://www.bitmex.com/api/v1/user/margin"
      = "/api/v1/user/margin"
    ∧ apiKeyAuthWithExpiresCall (fun s m => m ++ "|" ++ s) "mykey" "chNOOS4e" 1518064236
        ⟨"POST", "https://www.bitmex.com/api/v1/order?filter=abc", Option.none⟩
      = [("api-expires", toString ((1518064236 : Int) + 5)), ("api-key", "mykey"),
         ("api-signature",
           (fun s m => m ++ "|" ++ s) "chNOOS4e"
             ("POST" ++ urlPathWithQuery "https://www.bitmex.com/api/v1/order?filter=abc"
               ++ toString ((1518064236 : Int) + 5) ++ ""))] :=
  C6_signature_spec (fun s m => m ++ "|" ++ s) "chNOOS4e" "POST"
    "https://www.bitmex.com/api/v1/order?filter=abc" 1416993995705 "body" "mykey"
    1518064236 (by decide)

/-- Claim C7 (code_bug).  The claim says FILLED requires
`ordStatus == 'Filled'` AND `workingIndicator == false`, and ACTIVE
requires `'New'` AND `workingIndicator == true`.  In the source the
`and (not) workingIndicator` operand is swallowed by Python's
conditional-expression precedence, so the indicator never gates either
branch: a message with `ordStatus 'Filled'` but `workingIndicator True`
IS classified FILLED (with parsed price/cumQty/leavesQty), and
`'New'` with `workingIndicator False` IS classified ACTIVE. -/
theorem C7_filled_despite_working :
    readOrderStatus ⟨"Filled", true, 15373, 100, 0⟩
      = ("FILLED", some 15373, some 100, some 0)
    ∧ readOrderStatus ⟨"New", false, 0, 0, 0⟩
      = ("ACTIVE", Option.none, Option.none, Option.none) :=
  ⟨rfl, rfl⟩

/-- Counterexample to claim C8 as stated: for the non-market order type
`"Limit"` with the non-positive price 0, `place_order` does NOT raise a
fatal input error — the source checks `price < 0`, so a zero price
passes the check and the order is dispatched, price 0 included. -/
theorem C8_counterexample_zero_price_dispatches :
    place_order "XBTUSD" 100 "Limit" (some 0) Option.none
      = PlaceResult.dispatched
          (PyVal.dict [("price", PyVal.int 0), ("symbol", PyVal.str "XBTUSD"),
                       ("orderQty", PyVal.int 100), ("orderType", PyVal.str "Limit")]) := by
  rfl

/-- Claim C8 (corrected).  Amended claim: for every call to `place_order`
with an order type other than `"Market"` and a NEGATIVE price
(`price < 0`), the call raises the fatal input error before any request
is dispatched; a zero price is not rejected and is dispatched. -/
theorem C8_negative_price_rejected
    (symbol : String) (quantity : Int) (ordertpye : String) (p : Int)
    (stopPx : Option Int) (hm : ordertpye ≠ "Market") (hp : p < 0) :
    place_order symbol quantity ordertpye (some p) stopPx
      = PlaceResult.raisedPriceError := by
  simp [place_order, hm, hp]

/-- Witness for C8: a Limit order at price -1 is rejected before
dispatch. -/
theorem C8_negative_price_rejected_witness :
    place_order "XBTUSD" 100 "Limit" (some (-1)) Option.none
      = PlaceResult.raisedPriceError :=
  C8_negative_price_rejected "XBTUSD" 100 "Limit" (-1) Option.none
    (by decide) (by decide)

/-- Claim C9 (confirmed).  `buy` and `sell` discard the caller's `price`
and `stopPx` arguments: both forward the literals `price=None,
stopPx=None` to `place_order` whatever the caller passed (`sell` negates
the quantity first), so no order placed through them carries the
caller's limit or stop price. -/
theorem C9_buy_sell_discard_price :
    ∀ (symbol : String) (quantity : Int) (ordertpye : String) (price stopPx : Option Int),
      buy symbol quantity ordertpye price stopPx
        = place_order symbol quantity ordertpye Option.none Option.none
      ∧ sell symbol quantity ordertpye price stopPx
        = place_order symbol (-quantity) ordertpye Option.none Option.none :=
  fun _ _ _ _ _ => ⟨rfl, rfl⟩

/-- Claim C2 (confirmed).  For a logical call that does not override
`max_retries` and starts with the shared counter at 0: the default
budget is 0 for POST/PUT and 3 otherwise; a single 503 on a POST or PUT
raises the max-retries exception with exactly one send on the wire (no
re-dispatch); a GET or DELETE hitting 503s or timeouts is re-dispatched
up to 3 times, succeeding within budget (resetting the counter to 0) and
raising the max-retries exception on the fourth consecutive failure; and
once the attempt count exceeds the budget, any further retryable outcome
raises at once instead of re-dispatching. -/
theorem C2_default_retry_budget :
    (defaultMaxRetries "POST" = 0 ∧ defaultMaxRetries "PUT" = 0 ∧
     defaultMaxRetries "GET" = 3 ∧ defaultMaxRetries "DELETE" = 3)
    ∧ (∀ (rth : Bool) (pd : PyVal) (rest : List Outcome),
        curl_bitmex_private "POST" rth pd Option.none (Outcome.unavailable :: rest) (some 0)
          = (DispatchResult.raisedMaxRetries, some 1, [Effect.send, Effect.sleep 3])
        ∧ curl_bitmex_private "PUT" rth pd Option.none (Outcome.unavailable :: rest) (some 0)
          = (DispatchResult.raisedMaxRetries, some 1, [Effect.send, Effect.sleep 3]))
    ∧ (∀ (rth : Bool) (pd b : PyVal) (rest : List Outcome),
        curl_bitmex_private "GET" rth pd Option.none
            (Outcome.unavailable :: Outcome.unavailable :: Outcome.unavailable ::
              Outcome.ok b :: rest) (some 0)
          = (DispatchResult.success b, some 0,
             [Effect.send, Effect.sleep 3, Effect.send, Effect.sleep 3,
              Effect.send, Effect.sleep 3, Effect.send]))
    ∧ (∀ (rth : Bool) (pd : PyVal) (rest : List Outcome),
        curl_bitmex_private "GET" rth pd Option.none
            (Outcome.unavailable :: Outcome.unavailable :: Outcome.unavailable ::
              Outcome.unavailable :: rest) (some 0)
          = (DispatchResult.raisedMaxRetries, some 4,
             [Effect.send, Effect.sleep 3, Effect.send, Effect.sleep 3,
              Effect.send, Effect.sleep 3, Effect.send, Effect.sleep 3]))
    ∧ (∀ (rth : Bool) (pd b : PyVal) (rest : List Outcome),
        curl_bitmex_private "DELETE" rth pd Option.none
            (Outcome.timeout :: Outcome.timeout :: Outcome.timeout ::
              Outcome.ok b :: rest) (some 0)
          = (DispatchResult.success b, some 0,
             [Effect.send, Effect.send, Effect.send, Effect.send])
        ∧ curl_bitmex_private "DELETE" rth pd Option.none
            (Outcome.timeout :: Outcome.timeout :: Outcome.timeout ::
              Outcome.timeout :: rest) (some 0)
          = (DispatchResult.raisedMaxRetries, some 4,
             [Effect.send, Effect.send, Effect.send, Effect.send]))
    ∧ (∀ (k : Nat) (rth : Bool) (pd : PyVal) (rest : List Outcome),
        curl_bitmex_private "GET" rth pd Option.none
            (Outcome.unavailable :: rest) (some (3 + k))
          = (DispatchResult.raisedMaxRetries, some (3 + k + 1),
             [Effect.send, Effect.sleep 3])) := by
  refine ⟨⟨rfl, rfl, rfl, rfl⟩, fun rth pd rest => ⟨rfl, rfl⟩,
    fun rth pd b rest => rfl, fun rth pd rest => rfl,
    fun rth pd b rest => ⟨rfl, rfl⟩, fun k rth pd rest => ?_⟩
  have h3 : (Option.none : Option Nat).getD (defaultMaxRetries "GET") = 3 := rfl
  have hk : 3 + k + 1 > 3 := by omega
  simp [curl_bitmex_private, h3, hk]

/-- Counterexample to claim C3 as stated: the attempt counter is the
shared mutable `self.retries` on the client, not per-call state.  A GET
that exhausts its budget (four 503s) ends with the counter at 4; the
very same second logical call that succeeds after one retry when started
from a fresh counter (0) instead raises the max-retries exception at
once when started from the counter the first call left behind — so
retries consumed by one call DO reduce the budget available to the next,
and a fresh logical call does not begin at zero. -/
theorem C3_counterexample :
    (curl_bitmex_private "GET" false (PyVal.dict []) Option.none
        [Outcome.unavailable, Outcome.unavailable, Outcome.unavailable, Outcome.unavailable]
        (some 0)).2.1 = some 4
    ∧ (curl_bitmex_private "GET" false (PyVal.dict []) Option.none
        [Outcome.unavailable, Outcome.ok (PyVal.int 7)] (some 0)).1
      = DispatchResult.success (PyVal.int 7)
    ∧ (curl_bitmex_private "GET" false (PyVal.dict []) Option.none
        [Outcome.unavailable, Outcome.ok (PyVal.int 7)] (some 4)).1
      = DispatchResult.raisedMaxRetries :=
  ⟨rfl, rfl, rfl⟩

/-- Claim C3 (corrected).  Amended claim: the retry counter is shared
mutable client state, reset to zero only when a call completes
successfully (the assignment `self.retries = 0` on the 2xx path); a call
that ends in the max-retries exception leaves the counter elevated, so
the retries it consumed reduce the retry budget available to the next
logical call on the same client. -/
theorem C3_shared_counter_amended :
    (∀ (verb : String) (rth : Bool) (pd : PyVal) (ma : Option Nat)
        (outs : List Outcome) (r : Option Nat) (b : PyVal),
      (curl_bitmex_private verb rth pd ma outs r).1 = DispatchResult.success b →
      (curl_bitmex_private verb rth pd ma outs r).2.1 = some 0)
    ∧ (curl_bitmex_private "GET" false (PyVal.dict []) Option.none
        [Outcome.unavailable, Outcome.unavailable, Outcome.unavailable, Outcome.unavailable]
        (some 0)).2.1 = some 4
    ∧ (curl_bitmex_private "GET" false (PyVal.dict []) Option.none
        [Outcome.unavailable, Outcome.ok (PyVal.int 9)] (some 4)).1
      = DispatchResult.raisedMaxRetries :=
  ⟨fun verb rth pd ma => curl_bitmex_private_success_resets verb rth pd ma, rfl, rfl⟩

/-- Witness for C3: the reset-on-success part applied at a concrete
successful call starting from a nonzero counter. -/
theorem C3_shared_counter_amended_witness :
    (curl_bitmex_private "GET" false (PyVal.dict []) Option.none
        [Outcome.ok (PyVal.int 1)] (some 2)).2.1 = some 0 :=
  C3_shared_counter_amended.1 "GET" false (PyVal.dict []) Option.none
    [Outcome.ok (PyVal.int 1)] (some 2) (PyVal.int 1) rfl

/-- Counterexample to claim C4 as stated: on the public dispatcher
`_curl_bitmex`, which has no 401 branch, a 401 falls into the
unhandled-error path and with the rethrow flag set it IS raised to the
caller instead of terminating the process. -/
theorem C4_counterexample :
    (curl_bitmex "GET" true (PyVal.dict []) Option.none [Outcome.unauthorized] (some 0)).1
      = DispatchResult.raisedHTTP 401 :=
  rfl

/-- Claim C4 (corrected).  Amended claim: on the private dispatcher
`_curl_bitmex_private`, a 401 logs and terminates the process
immediately regardless of the rethrow flag, with no retry and no raised
exception; on the public dispatcher `_curl_bitmex` a 401 is an unhandled
error that honours the rethrow flag — raised to the caller when the flag
is set, process exit otherwise — and likewise never retries. -/
theorem C4_unauthorized_amended :
    ∀ (verb : String) (rth : Bool) (pd : PyVal) (ma : Option Nat) (r : Option Nat)
      (rest : List Outcome),
      curl_bitmex_private verb rth pd ma (Outcome.unauthorized :: rest) r
        = (DispatchResult.exited, r, [Effect.send])
      ∧ curl_bitmex verb true pd ma (Outcome.unauthorized :: rest) r
        = (DispatchResult.raisedHTTP 401, r, [Effect.send])
      ∧ curl_bitmex verb false pd ma (Outcome.unauthorized :: rest) r
        = (DispatchResult.exited, r, [Effect.send]) :=
  fun _ _ _ _ _ _ => ⟨rfl, rfl, rfl⟩

/-- Claim C5 (confirmed).  On a 429 both dispatchers read the
`X-Ratelimit-Reset` header and sleep for `reset - now` seconds before
re-dispatching; the private dispatcher first cancels all currently-known
open orders (the `cancelAllKnownOrders` effect precedes the sleep in its
trace), while the public dispatcher sleeps and retries without
cancelling anything. -/
theorem C5_ratelimit_handling :
    ∀ (rth : Bool) (pd : PyVal) (reset now : Int) (b : PyVal) (rest : List Outcome),
      curl_bitmex_private "GET" rth pd Option.none
          (Outcome.rateLimited reset now :: Outcome.ok b :: rest) (some 0)
        = (DispatchResult.success b, some 0,
           [Effect.send, Effect.cancelAllKnownOrders, Effect.sleep (reset - now), Effect.send])
      ∧ curl_bitmex "GET" rth pd Option.none
          (Outcome.rateLimited reset now :: Outcome.ok b :: rest) (some 0)
        = (DispatchResult.success b, some 0,
           [Effect.send, Effect.sleep (reset - now), Effect.send]) :=
  fun _ _ _ _ _ _ => ⟨rfl, rfl⟩

/-- Counterexample to claim C10 as stated: on a fresh `TradeClient`
(counter attribute absent, modelled by `none`) a 429 — one of the
claim's four "retryable outcomes" — does NOT raise an AttributeError:
its recovery cancels all known orders through nested requests whose
successful completion assigns `self.retries = 0`, so the outer `retry()`
re-dispatches and the call succeeds. -/
theorem C10_counterexample :
    curl_bitmex_private "GET" false (PyVal.dict []) Option.none
        [Outcome.rateLimited 10 8, Outcome.ok (PyVal.int 5)] Option.none
      = (DispatchResult.success (PyVal.int 5), some 0,
         [Effect.send, Effect.cancelAllKnownOrders, Effect.sleep 2, Effect.send]) := by
  rfl

/-- Claim C10 (corrected).  Amended claim: on a freshly constructed
`TradeClient` (whose `__init__` never invokes `Client.__init__`, so the
`retries` attribute is absent until the success path of a completed
request first assigns it), the first timeout, connection-error or 503
outcome raises an AttributeError inside the retry helper instead of
re-dispatching — after any pre-retry sleep, with exactly one request
sent; a 429, however, first runs the cancel-all recovery, whose nested
successful requests assign `self.retries = 0`, after which the outer
retry re-dispatches normally. -/
theorem C10_fresh_client_amended :
    ∀ (verb : String) (rth : Bool) (pd : PyVal) (ma : Option Nat) (rest : List Outcome)
      (reset now : Int) (b : PyVal),
      curl_bitmex_private verb rth pd ma (Outcome.timeout :: rest) Option.none
        = (DispatchResult.attrError, Option.none, [Effect.send])
      ∧ curl_bitmex_private verb rth pd ma (Outcome.connError :: rest) Option.none
        = (DispatchResult.attrError, Option.none, [Effect.send, Effect.sleep 1])
      ∧ curl_bitmex_private verb rth pd ma (Outcome.unavailable :: rest) Option.none
        = (DispatchResult.attrError, Option.none, [Effect.send, Effect.sleep 3])
      ∧ curl_bitmex_private "GET" rth pd Option.none
          (Outcome.rateLimited reset now :: Outcome.ok b :: rest) Option.none
        = (DispatchResult.success b, some 0,
           [Effect.send, Effect.cancelAllKnownOrders, Effect.sleep (reset - now),
            Effect.send]) :=
  fun _ _ _ _ _ _ _ _ => ⟨rfl, rfl, rfl, rfl⟩
